import Mathlib

set_option autoImplicit false

/-!
Shallow embedding of the pdf-translation-poc backend
(`src/backend/api/routes.py`, `src/backend/core/pdf_processor_simple.py`),
together with theorems settling the frozen claims about it.

File contents are modelled as byte lists, the temp-file storage as a partial
map from paths to contents, and the in-memory session dictionary
`uploaded_files` as an association list from session ids to records.
-/

/-- A file content: a list of byte values. -/
abbrev Bytes := List Nat

/-- The temp-file storage: a partial map from paths to file contents. -/
abbrev FS := String → Option Bytes

/-- Writing a file (Python `open(path, "wb")` + copy). -/
def fsWrite (fs : FS) (p : String) (c : Bytes) : FS :=
  fun q => if q = p then some c else fs q

/-- Deleting a file (Python `os.remove`). -/
def fsRemove (fs : FS) (p : String) : FS :=
  fun q => if q = p then none else fs q

/-- Python `os.path.exists`. -/
def fsExists (fs : FS) (p : String) : Bool :=
  (fs p).isSome

/-- The four magic bytes `%PDF` (`b"%PDF"` at pdf_processor_simple.py line 18). -/
def pdfMagic : Bytes := [0x25, 0x50, 0x44, 0x46]

/-- Embedding of `PDFProcessor.validate_pdf` (pdf_processor_simple.py lines 12-21):
open the file, read the first four bytes, compare to `%PDF`; any read failure
(here: the path is not in storage) yields `false`. `List.take 4` mirrors
`f.read(4)`, which returns fewer bytes when the file is shorter. -/
def validate_pdf (fs : FS) (pdf_path : String) : Bool :=
  match fs pdf_path with
  | none => false
  | some header => header.take 4 == pdfMagic

/-- Claim C4: the minimal validator returns true iff the file exists and its
first four bytes are the ASCII bytes of `%PDF`; a read failure yields false. -/
theorem validate_pdf_iff_magic (fs : FS) (pdf_path : String) :
    (validate_pdf fs pdf_path = true ↔
      ∃ b, fs pdf_path = some b ∧ b.take 4 = pdfMagic) ∧
    (fs pdf_path = none → validate_pdf fs pdf_path = false) := by
  constructor
  · constructor
    · intro h
      cases hb : fs pdf_path with
      | none => rw [validate_pdf, hb] at h; exact absurd h (by simp)
      | some b =>
        refine ⟨b, rfl, ?_⟩
        rw [validate_pdf, hb] at h
        exact eq_of_beq h
    · rintro ⟨b, hb, htake⟩
      rw [validate_pdf, hb]
      simp [htake]
  · intro hb
    rw [validate_pdf, hb]

/-- Example storage used to instantiate `validate_pdf_iff_magic`. -/
def exampleFS : FS :=
  fun p => if p = "good.pdf" then some (pdfMagic ++ [0x2D]) else none

/-- Witness for C4 at a concrete storage: a file starting with the magic bytes
validates, and a missing file does not. -/
theorem validate_pdf_iff_magic_witness :
    validate_pdf exampleFS "good.pdf" = true ∧
    validate_pdf exampleFS "missing.pdf" = false :=
  ⟨(validate_pdf_iff_magic exampleFS "good.pdf").1.mpr
      ⟨pdfMagic ++ [0x2D], rfl, rfl⟩,
    (validate_pdf_iff_magic exampleFS "missing.pdf").2 rfl⟩

/-!
### Session store and HTTP API layer (`src/backend/api/routes.py`)
-/

/-- A session record: the value stored in the `uploaded_files` dictionary.
`original_path` and `filename` are always present (routes.py lines 65-68);
`edited_path` and `translated_path` are optional keys added later.
`translationSucceeded` is a history variable, not a key of the Python dict:
it records whether a translation attempt has succeeded for this session
(set below exactly where routes.py line 198 runs). -/
structure SessionRec where
  original_path : String
  filename : String
  edited_path : Option String := none
  translated_path : Option String := none
  translationSucceeded : Bool := false
deriving DecidableEq

/-- The `uploaded_files` dictionary, as an insertion-ordered association list. -/
abbrev Store := List (String × SessionRec)

/-- Dictionary lookup (`uploaded_files[session_id]` / `session_id in uploaded_files`). -/
def storeFind (s : Store) (sid : String) : Option SessionRec :=
  match s with
  | [] => none
  | (k, v) :: rest => if k = sid then some v else storeFind rest sid

/-- Dictionary assignment `uploaded_files[sid] = v`: replaces the entry when
the key is present, appends it otherwise. -/
def storeSet (s : Store) (sid : String) (v : SessionRec) : Store :=
  match s with
  | [] => [(sid, v)]
  | (k, w) :: rest => if k = sid then (sid, v) :: rest else (k, w) :: storeSet rest sid v

/-- Dictionary deletion `del uploaded_files[sid]`. -/
def storeDel (s : Store) (sid : String) : Store :=
  match s with
  | [] => []
  | (k, w) :: rest => if k = sid then rest else (k, w) :: storeDel rest sid

/-- The whole mutable state the routes touch: the session dictionary and the
temp-file storage. -/
structure AppState where
  store : Store
  fs : FS

/-- A text segment of the extract-text response (models/schemas.py lines 4-12).
The source stores the bounding box as floating point; the coordinates are
carried opaquely as integers here — no claim inspects them, and the only
processor routes.py imports never produces a segment (see
`extract_text_with_positions`). -/
structure TextSegment where
  text : String
  page : Nat
  x0 : Int
  y0 : Int
  x1 : Int
  y1 : Int
  segment_id : Option String := none
deriving DecidableEq

/-- Response payloads of the seven endpoints, mirroring the response models of
models/schemas.py and the ad-hoc dict responses of routes.py. -/
inductive Payload where
  | upload (session_id : String) (filename : String) (message : String)
  | extract (segments : List TextSegment) (total_segments : Nat)
  | updated (message : String) (session_id : String)
  | translation (success : Bool) (message : String) (pdf_url : Option String)
  | fileResponse (path : String) (media_type : String)
  | cleaned (message : String)
  | sessions (active_sessions : Nat) (entries : List (String × String × Bool))
deriving DecidableEq

/-- Outcome of one request: a payload, or an `HTTPException` with a status
code and a detail string. -/
inductive ApiResult where
  | ok (payload : Payload)
  | httpError (status : Nat) (detail : String)
deriving DecidableEq

/-- `settings.TEMP_DIR` (core/config.py line 10), as an opaque path constant. -/
def tempDir : String := "temp"

/-- `os.path.join(settings.TEMP_DIR, name)`. -/
def tempJoin (name : String) : String := tempDir ++ "/" ++ name

/-- Python `str.endswith`, evaluated on the character lists. -/
def strEndsWith (s sfx : String) : Bool := List.isSuffixOf sfx.data s.data

/-- Embedding of `upload_pdf` (routes.py lines 26-85). The uuid4 session id is
an explicit parameter; `Step.upload` below carries the freshness that uuid
generation provides. Saving the upload always succeeds in this model (the
server-error branch of lines 81-85 is for I/O failures, outside every claim).
The flow: reject a filename without the `.pdf` suffix (line 42), save the file
(lines 49-53), validate it and delete it on failure (lines 58-60), else create
the session (lines 65-68). -/
def upload_pdf (filename : String) (content : Bytes) (sid : String)
    (st : AppState) : ApiResult × AppState :=
  if strEndsWith filename ".pdf" then
    let file_path := tempJoin (sid ++ "_original.pdf")
    let fs1 := fsWrite st.fs file_path content
    if validate_pdf fs1 file_path then
      (ApiResult.ok (Payload.upload sid filename
          "PDF uploaded and validated successfully"),
        { store := storeSet st.store sid
            { original_path := file_path, filename := filename },
          fs := fs1 })
    else
      (ApiResult.httpError 400 "Invalid or corrupted PDF file",
        { st with fs := fsRemove fs1 file_path })
  else
    (ApiResult.httpError 400 "Only PDF files are allowed", st)

/-- The `extract_text_with_positions` attribute of the processor routes.py
uses. routes.py line 6 imports `PDFProcessor` from
`core.pdf_processor_simple`, whose class body defines only `__init__`,
`validate_pdf` and `translate_document_deepl`; the attribute does not exist,
so the call at routes.py line 106 raises `AttributeError`. Modelled as
`none`; the Apryse-backed implementation in core/pdf_processor.py is not the
imported one. -/
def extract_text_with_positions : Option (FS → String → List TextSegment) :=
  none

/-- Detail string of the 500 raised at routes.py line 117 for the missing
attribute; Python quotes the class and attribute names, quotes elided here. -/
def extractFailureDetail : String :=
  "Text extraction failed: PDFProcessor object has no attribute extract_text_with_positions"

/-- Embedding of `extract_text` (routes.py lines 88-117): 404 when the session
is unknown (lines 100-101), else call
`pdf_processor.extract_text_with_positions` on `original_path` (lines
103-106); any exception becomes a 500 (line 117). -/
def extract_text (session_id : String) (st : AppState) : ApiResult × AppState :=
  match storeFind st.store session_id with
  | none => (ApiResult.httpError 404 "Session not found", st)
  | some r =>
    match extract_text_with_positions with
    | some f =>
      let segs := f st.fs r.original_path
      (ApiResult.ok (Payload.extract segs segs.length), st)
    | none => (ApiResult.httpError 500 extractFailureDetail, st)

/-- Embedding of `update_pdf` (routes.py lines 120-153): 404 when the session
is unknown, else save the new file as `{sid}_edited.pdf` and set
`edited_path` on the record (line 145). -/
def update_pdf (session_id : String) (content : Bytes) (st : AppState) :
    ApiResult × AppState :=
  match storeFind st.store session_id with
  | none => (ApiResult.httpError 404 "Session not found", st)
  | some r =>
    let edited_path := tempJoin (session_id ++ "_edited.pdf")
    (ApiResult.ok (Payload.updated "PDF updated successfully" session_id),
      { store := storeSet st.store session_id { r with edited_path := some edited_path },
        fs := fsWrite st.fs edited_path content })

/-- The structured value the translation gateway returns
(pdf_processor_simple.py lines 102-106 and 116-120). -/
structure TransResult where
  success : Bool
  error : Option String := none
  message : String
  output_path : Option String := none
deriving DecidableEq

/-- Embedding of routes.py line 176, the input selection of `translate_pdf`:
`uploaded_files[sid].get("edited_path") or uploaded_files[sid]["original_path"]`.
Python `or` falls through on a falsy (empty) string, hence the emptiness
test. -/
def activeInput (r : SessionRec) : String :=
  match r.edited_path with
  | some e => if e = "" then r.original_path else e
  | none => r.original_path

/-- Embedding of `translate_pdf` (routes.py lines 156-213). The gateway
outcome `gw` and the bytes it writes to the output file are oracle
parameters (the gateway itself is modelled separately as
`translate_document_deepl`). On gateway success the route stores
`translated_path` (line 198) — the history variable `translationSucceeded`
is set at exactly that point; on gateway failure it raises a 500 carrying
the gateway error (line 206; `result["error"]` read off the dict). -/
def translate_pdf (session_id : String) (gw : TransResult) (outBytes : Bytes)
    (st : AppState) : ApiResult × AppState :=
  match storeFind st.store session_id with
  | none => (ApiResult.httpError 404 "Session not found", st)
  | some r =>
    let output_pdf := tempJoin (session_id ++ "_translated.pdf")
    if gw.success then
      (ApiResult.ok (Payload.translation true gw.message
          (some ("/api/v1/download/" ++ session_id ++ "/translated"))),
        { store := storeSet st.store session_id
            { r with translated_path := some output_pdf, translationSucceeded := true },
          fs := fsWrite st.fs output_pdf outBytes })
    else
      (ApiResult.httpError 500 (gw.error.getD ""), st)

/-- Detail string of routes.py line 239; the source quotes the two variant
names with apostrophes, elided here. -/
def invalidTypeDetail : String := "Invalid PDF type. Use original or translated"

/-- Embedding of `download_pdf` (routes.py lines 216-256): 404 for an unknown
session (lines 229-230), then the variant dispatch (lines 232-239), then the
truthiness/existence check on the resolved path (lines 241-242). The served
response carries the path and media type; the cosmetic download filename of
lines 244-247 plays no part in any claim and is not modelled. -/
def download_pdf (session_id : String) (pdf_type : String) (st : AppState) :
    ApiResult × AppState :=
  match storeFind st.store session_id with
  | none => (ApiResult.httpError 404 "Session not found", st)
  | some r =>
    if pdf_type = "original" then
      if r.original_path = "" || !fsExists st.fs r.original_path then
        (ApiResult.httpError 404 "PDF file not found", st)
      else
        (ApiResult.ok (Payload.fileResponse r.original_path "application/pdf"), st)
    else if pdf_type = "translated" then
      match r.translated_path with
      | none =>
        (ApiResult.httpError 404 "Translated PDF not found. Please translate first.", st)
      | some t =>
        if t = "" || !fsExists st.fs t then
          (ApiResult.httpError 404 "PDF file not found", st)
        else
          (ApiResult.ok (Payload.fileResponse t "application/pdf"), st)
    else
      (ApiResult.httpError 400 invalidTypeDetail, st)

/-- The message of routes.py line 290. -/
def cleanupMessage (files_removed : Nat) : String :=
  "Session cleaned up successfully. " ++ toString files_removed ++ " file(s) removed."

/-- Embedding of `cleanup_session` (routes.py lines 259-290): 404 for an
unknown session; otherwise iterate over the key list
`["original_path", "translated_path"]` (line 276 — note `edited_path` is not
in it), removing each referenced file that exists and counting it, then
delete the session record. -/
def cleanup_session (session_id : String) (st : AppState) : ApiResult × AppState :=
  match storeFind st.store session_id with
  | none => (ApiResult.httpError 404 "Session not found", st)
  | some r =>
    let s1 : Nat × FS :=
      if fsExists st.fs r.original_path then (1, fsRemove st.fs r.original_path)
      else (0, st.fs)
    let s2 : Nat × FS :=
      match r.translated_path with
      | some t => if fsExists s1.2 t then (s1.1 + 1, fsRemove s1.2 t) else s1
      | none => s1
    (ApiResult.ok (Payload.cleaned (cleanupMessage s2.1)),
      { store := storeDel st.store session_id, fs := s2.2 })

/-- Embedding of `list_sessions` (routes.py lines 293-310): the count and, per
session, id / filename / whether `translated_path` is a key of the record. -/
def list_sessions (st : AppState) : ApiResult × AppState :=
  (ApiResult.ok (Payload.sessions st.store.length
      (st.store.map (fun p => (p.1, p.2.filename, p.2.translated_path.isSome)))),
    st)

/-!
### Concrete runs of the operations
-/

/-- The state at process start: empty session dictionary, empty temp storage. -/
def initState : AppState := { store := [], fs := fun _ => none }

/-- State after uploading a valid PDF named `a.pdf` under session id `s`. -/
def stateAfterUpload : AppState := (upload_pdf "a.pdf" pdfMagic "s" initState).2

/-- State after additionally replacing the PDF through the update endpoint. -/
def stateAfterUpdate : AppState := (update_pdf "s" pdfMagic stateAfterUpload).2

/-- A successful gateway outcome (pdf_processor_simple.py lines 102-106). -/
def gatewaySuccess : TransResult :=
  { success := true,
    output_path := some (tempJoin "s_translated.pdf"),
    message := "Translation completed successfully using DeepL Document API" }

/-- State after a successful translation of the updated session. -/
def stateAfterTranslate : AppState :=
  (translate_pdf "s" gatewaySuccess pdfMagic stateAfterUpdate).2

/-- Claim C1: in a session reached by upload, update and a successful
translate, cleanup deletes the original and translated files, reports a count
of 2, and removes the record — but the edited file the session references is
still in storage afterwards: routes.py line 276 iterates only over
`original_path` and `translated_path`, contradicting the endpoint docstring
("removes all files associated with a session") and the spec. -/
theorem cleanup_session_leaves_edited_file :
    (cleanup_session "s" stateAfterTranslate).2.fs (tempJoin "s_edited.pdf") = some pdfMagic ∧
    (cleanup_session "s" stateAfterTranslate).2.fs (tempJoin "s_original.pdf") = none ∧
    (cleanup_session "s" stateAfterTranslate).2.fs (tempJoin "s_translated.pdf") = none ∧
    (cleanup_session "s" stateAfterTranslate).2.store = [] ∧
    (cleanup_session "s" stateAfterTranslate).1 =
      ApiResult.ok (Payload.cleaned (cleanupMessage 2)) := by
  refine ⟨rfl, rfl, rfl, rfl, rfl⟩

/-- Claim C2: for an existing session the extract-text operation never returns
the segment list: the imported `PDFProcessor` lacks the
`extract_text_with_positions` attribute, so the call raises and the endpoint
answers 500 (here shown on the state after a plain upload); an unknown
session id still gets the claimed 404. -/
theorem extract_text_always_500_on_existing_session :
    extract_text "s" stateAfterUpload =
      (ApiResult.httpError 500 extractFailureDetail, stateAfterUpload) ∧
    (extract_text "other" stateAfterUpload).1 =
      ApiResult.httpError 404 "Session not found" := by
  refine ⟨rfl, rfl⟩

/-- Claim C3, counterexample: for an unknown session id the download operation
answers 404 (the session check at routes.py lines 229-230 runs before the
variant dispatch), not the claimed 400 — even though the requested type
`bogus` lies outside the two recognized variants. -/
theorem download_unknown_session_bad_type_is_404 :
    ("bogus" ≠ "original" ∧ "bogus" ≠ "translated") ∧
    download_pdf "nope" "bogus" initState =
      (ApiResult.httpError 404 "Session not found", initState) := by
  refine ⟨⟨by decide, by decide⟩, rfl⟩

/-- Claim C3 as amended: for every session id that is in the store, a download
type outside the two recognized variants yields the 400 client error,
whatever the session record and storage contain. -/
theorem download_bad_type_is_400 (st : AppState) (session_id pdf_type : String)
    (r : SessionRec) (hfind : storeFind st.store session_id = some r)
    (h1 : pdf_type ≠ "original") (h2 : pdf_type ≠ "translated") :
    download_pdf session_id pdf_type st = (ApiResult.httpError 400 invalidTypeDetail, st) := by
  unfold download_pdf
  rw [hfind]
  simp [h1, h2]

/-- Witness for the amended C3: the session created by the example upload,
asked for the variant `bogus`, gets the 400. -/
theorem download_bad_type_is_400_witness :
    download_pdf "s" "bogus" stateAfterUpload =
      (ApiResult.httpError 400 invalidTypeDetail, stateAfterUpload) :=
  download_bad_type_is_400 stateAfterUpload "s" "bogus"
    { original_path := tempJoin "s_original.pdf", filename := "a.pdf" }
    (by rfl) (by decide) (by decide)

/-- Validating the file just saved reduces to the header test on its bytes. -/
theorem validate_pdf_fsWrite (fs : FS) (p : String) (c : Bytes) :
    validate_pdf (fsWrite fs p c) p = (c.take 4 == pdfMagic) := by
  simp [validate_pdf, fsWrite]

/-- Claim C8: an upload whose filename lacks the `.pdf` suffix is rejected
with a 400 and changes nothing; an upload whose saved bytes fail the header
validation is rejected with a 400, the saved file is deleted, and no session
record is created. -/
theorem upload_pdf_client_errors (st : AppState) (filename : String)
    (content : Bytes) (sid : String) :
    (strEndsWith filename ".pdf" = false →
      upload_pdf filename content sid st =
        (ApiResult.httpError 400 "Only PDF files are allowed", st)) ∧
    (strEndsWith filename ".pdf" = true → content.take 4 ≠ pdfMagic →
      (upload_pdf filename content sid st).1 =
          ApiResult.httpError 400 "Invalid or corrupted PDF file" ∧
      (upload_pdf filename content sid st).2.store = st.store ∧
      (upload_pdf filename content sid st).2.fs (tempJoin (sid ++ "_original.pdf")) = none) := by
  constructor
  · intro h
    simp [upload_pdf, h]
  · intro h hc
    have hv : validate_pdf (fsWrite st.fs (tempJoin (sid ++ "_original.pdf")) content)
        (tempJoin (sid ++ "_original.pdf")) = false := by
      rw [validate_pdf_fsWrite]
      exact beq_false_of_ne hc
    refine ⟨?_, ?_, ?_⟩ <;> simp [upload_pdf, h, hv, fsRemove]

/-- Witness for C8: a `.txt` upload is rejected untouched, and a `.pdf` upload
whose bytes do not start with the magic is rejected with the file deleted and
the store left empty. -/
theorem upload_pdf_client_errors_witness :
    upload_pdf "notes.txt" pdfMagic "s" initState =
      (ApiResult.httpError 400 "Only PDF files are allowed", initState) ∧
    (upload_pdf "b.pdf" [0x25] "s" initState).1 =
        ApiResult.httpError 400 "Invalid or corrupted PDF file" ∧
    (upload_pdf "b.pdf" [0x25] "s" initState).2.store = [] ∧
    (upload_pdf "b.pdf" [0x25] "s" initState).2.fs (tempJoin "s_original.pdf") = none :=
  ⟨(upload_pdf_client_errors initState "notes.txt" pdfMagic "s").1 (by decide),
    (upload_pdf_client_errors initState "b.pdf" [0x25] "s").2 (by decide) (by decide)⟩

/-- Claim C10: the extract-text, download and list-sessions operations leave
the whole application state — every session record and the temp storage —
exactly as they found it, on every path including the error paths. -/
theorem read_only_routes_preserve_state (st : AppState) (session_id pdf_type : String) :
    (extract_text session_id st).2 = st ∧
    (download_pdf session_id pdf_type st).2 = st ∧
    (list_sessions st).2 = st := by
  refine ⟨?_, ?_, rfl⟩
  · unfold extract_text
    cases storeFind st.store session_id <;> rfl
  · unfold download_pdf
    cases storeFind st.store session_id with
    | none => rfl
    | some r => (repeat' split) <;> rfl

/-!
### Reachable states of the service and the session-record invariants
-/

/-- `tempJoin` always yields a path starting with the temp directory. -/
theorem tempJoin_data (name : String) :
    (tempJoin name).data = 't' :: 'e' :: 'm' :: 'p' :: '/' :: name.data := rfl

/-- Paths built by `os.path.join(settings.TEMP_DIR, ...)` are never empty. -/
theorem tempJoin_ne_empty (name : String) : tempJoin name ≠ "" := by
  intro h
  have h2 : (tempJoin name).data = [] := congrArg String.data h
  rw [tempJoin_data] at h2
  exact absurd h2 (by simp)

/-- Entries of the store after an assignment: the assigned pair, or an old one. -/
theorem mem_storeSet {s : Store} {sid : String} {v : SessionRec}
    {x : String × SessionRec} (hx : x ∈ storeSet s sid v) : x = (sid, v) ∨ x ∈ s := by
  induction s with
  | nil =>
    simp only [storeSet, List.mem_singleton] at hx
    exact Or.inl hx
  | cons hd tl ih =>
    obtain ⟨k, w⟩ := hd
    simp only [storeSet] at hx
    split at hx
    · rcases List.mem_cons.mp hx with h1 | h1
      · exact Or.inl h1
      · exact Or.inr (List.mem_cons_of_mem _ h1)
    · rcases List.mem_cons.mp hx with h1 | h1
      · exact Or.inr (h1 ▸ List.mem_cons_self _ _)
      · rcases ih h1 with h2 | h2
        · exact Or.inl h2
        · exact Or.inr (List.mem_cons_of_mem _ h2)

/-- Entries of the store after a deletion were entries before it. -/
theorem mem_storeDel {s : Store} {sid : String} {x : String × SessionRec}
    (hx : x ∈ storeDel s sid) : x ∈ s := by
  induction s with
  | nil => simp [storeDel] at hx
  | cons hd tl ih =>
    obtain ⟨k, w⟩ := hd
    simp only [storeDel] at hx
    split at hx
    · exact List.mem_cons_of_mem _ hx
    · rcases List.mem_cons.mp hx with h1 | h1
      · exact h1 ▸ List.mem_cons_self _ _
      · exact List.mem_cons_of_mem _ (ih h1)

/-- A successful lookup names an entry of the store. -/
theorem storeFind_mem {s : Store} {sid : String} {r : SessionRec}
    (h : storeFind s sid = some r) : (sid, r) ∈ s := by
  induction s with
  | nil => simp [storeFind] at h
  | cons hd tl ih =>
    obtain ⟨k, w⟩ := hd
    simp only [storeFind] at h
    split at h
    · rename_i hk
      injection h with h
      subst h; subst hk
      exact List.mem_cons_self _ _
    · exact List.mem_cons_of_mem _ (ih h)

/-- The invariant each stored session record maintains: the edited path, when
set, is a real (non-empty) path, and `translated_path` is set exactly when a
translation attempt has succeeded for the session. -/
def RecInv (r : SessionRec) : Prop :=
  r.edited_path ≠ some "" ∧ r.translated_path.isSome = r.translationSucceeded

/-- The invariant over the whole dictionary. -/
def StoreInv (s : Store) : Prop := ∀ x ∈ s, RecInv x.2

/-- Extract-text leaves the state untouched on every path. -/
theorem extract_text_state (session_id : String) (st : AppState) :
    (extract_text session_id st).2 = st := by
  unfold extract_text
  cases storeFind st.store session_id <;> rfl

/-- Download leaves the state untouched on every path. -/
theorem download_pdf_state (session_id pdf_type : String) (st : AppState) :
    (download_pdf session_id pdf_type st).2 = st := by
  unfold download_pdf
  cases storeFind st.store session_id with
  | none => rfl
  | some r => (repeat' split) <;> rfl

/-- List-sessions leaves the state untouched. -/
theorem list_sessions_state (st : AppState) : (list_sessions st).2 = st := rfl

/-- Upload preserves the record invariant: the fresh record has no edited
path, no translated path and a false history flag. -/
theorem storeInv_upload (filename : String) (content : Bytes) (sid : String)
    (st : AppState) (h : StoreInv st.store) :
    StoreInv (upload_pdf filename content sid st).2.store := by
  unfold upload_pdf
  split
  · dsimp only
    split
    · intro x hx
      dsimp at hx
      rcases mem_storeSet hx with h1 | h1
      · subst h1
        exact ⟨by simp, rfl⟩
      · exact h x h1
    · exact h
  · exact h

/-- Update preserves the record invariant: the new edited path is a non-empty
temp path, the translation fields are untouched. -/
theorem storeInv_update (sid : String) (content : Bytes) (st : AppState)
    (h : StoreInv st.store) : StoreInv (update_pdf sid content st).2.store := by
  unfold update_pdf
  cases hfind : storeFind st.store sid with
  | none => exact h
  | some r =>
    intro x hx
    dsimp at hx
    rcases mem_storeSet hx with h1 | h1
    · subst h1
      refine ⟨?_, (h _ (storeFind_mem hfind)).2⟩
      intro hcontra
      injection hcontra with hc
      exact tempJoin_ne_empty _ hc
    · exact h x h1

/-- Translate preserves the record invariant: on gateway success both
`translated_path` and the history flag become set; on failure nothing
changes. -/
theorem storeInv_translate (sid : String) (gw : TransResult) (outBytes : Bytes)
    (st : AppState) (h : StoreInv st.store) :
    StoreInv (translate_pdf sid gw outBytes st).2.store := by
  unfold translate_pdf
  cases hfind : storeFind st.store sid with
  | none => exact h
  | some r =>
    dsimp only
    split
    · intro x hx
      dsimp at hx
      rcases mem_storeSet hx with h1 | h1
      · subst h1
        exact ⟨(h _ (storeFind_mem hfind)).1, rfl⟩
      · exact h x h1
    · exact h

/-- Cleanup preserves the record invariant: it only removes an entry. -/
theorem storeInv_cleanup (sid : String) (st : AppState) (h : StoreInv st.store) :
    StoreInv (cleanup_session sid st).2.store := by
  unfold cleanup_session
  cases storeFind st.store sid with
  | none => exact h
  | some r => exact fun x hx => h x (mem_storeDel hx)

/-- One client interaction with the service: one of the seven endpoints runs
on the current state. The uuid4-generated id of an upload is fresh. -/
inductive Step : AppState → AppState → Prop where
  | upload (filename : String) (content : Bytes) (sid : String) (st : AppState)
      (fresh : storeFind st.store sid = none) :
      Step st (upload_pdf filename content sid st).2
  | update (sid : String) (content : Bytes) (st : AppState) :
      Step st (update_pdf sid content st).2
  | translate (sid : String) (gw : TransResult) (outBytes : Bytes) (st : AppState) :
      Step st (translate_pdf sid gw outBytes st).2
  | extract (sid : String) (st : AppState) :
      Step st (extract_text sid st).2
  | download (sid pdf_type : String) (st : AppState) :
      Step st (download_pdf sid pdf_type st).2
  | cleanup (sid : String) (st : AppState) :
      Step st (cleanup_session sid st).2
  | listSessions (st : AppState) :
      Step st (list_sessions st).2

/-- States the service can actually be in: reachable from the empty start
state by endpoint calls. -/
inductive Reachable : AppState → Prop where
  | init : Reachable initState
  | step {st st1 : AppState} : Reachable st → Step st st1 → Reachable st1

/-- Every endpoint call preserves the store invariant. -/
theorem step_preserves_storeInv {st st1 : AppState} (hs : Step st st1)
    (h : StoreInv st.store) : StoreInv st1.store := by
  cases hs with
  | upload filename content sid st fresh => exact storeInv_upload filename content sid st h
  | update sid content st => exact storeInv_update sid content st h
  | translate sid gw outBytes st => exact storeInv_translate sid gw outBytes st h
  | extract sid st => rw [extract_text_state]; exact h
  | download sid pdf_type st => rw [download_pdf_state]; exact h
  | cleanup sid st => exact storeInv_cleanup sid st h
  | listSessions st => exact h

/-- The store invariant holds in every reachable state. -/
theorem reachable_storeInv {st : AppState} (h : Reachable st) : StoreInv st.store := by
  induction h with
  | init => intro x hx; simp [initState] at hx
  | step _ hs ih => exact step_preserves_storeInv hs ih

/-- Claim C5: in every reachable state, the translate operation selects its
single input from the session record as `edited_path` when that key is set
and `original_path` otherwise — never both. (The Python `or` at routes.py
line 176 would fall through on an empty edited path, but no reachable record
carries one: update always stores a non-empty temp path.) -/
theorem translate_selects_edited_else_original (st : AppState) (h : Reachable st)
    (session_id : String) (r : SessionRec)
    (hfind : storeFind st.store session_id = some r) :
    (r.edited_path = none → activeInput r = r.original_path) ∧
    (∀ e, r.edited_path = some e → activeInput r = e) := by
  have hinv := (reachable_storeInv h _ (storeFind_mem hfind)).1
  constructor
  · intro he
    simp [activeInput, he]
  · intro e he
    have hne : ¬ e = "" := fun hc => hinv (by rw [he, hc])
    simp [activeInput, he, hne]

/-- The record stored for session `s` right after the example upload. -/
def recAfterUpload : SessionRec :=
  { original_path := tempJoin "s_original.pdf", filename := "a.pdf" }

/-- The record after the update endpoint stored the edited path. -/
def recAfterUpdate : SessionRec :=
  { recAfterUpload with edited_path := some (tempJoin "s_edited.pdf") }

/-- The record after a successful translation. -/
def recAfterTranslate : SessionRec :=
  { recAfterUpdate with translated_path := some (tempJoin "s_translated.pdf"), translationSucceeded := true }

/-- Witness for C5: in the reachable state built by upload-then-update, the
session record has an edited path and the selection returns exactly it; the
record straight after upload has none and the selection returns the original
path. -/
theorem translate_selects_edited_else_original_witness :
    activeInput recAfterUpdate = tempJoin "s_edited.pdf" ∧
    activeInput recAfterUpload = tempJoin "s_original.pdf" :=
  ⟨(translate_selects_edited_else_original stateAfterUpdate
      (Reachable.step
        (Reachable.step Reachable.init (Step.upload "a.pdf" pdfMagic "s" initState rfl))
        (Step.update "s" pdfMagic stateAfterUpload))
      "s" _ rfl).2 (tempJoin "s_edited.pdf") rfl,
    (translate_selects_edited_else_original stateAfterUpload
      (Reachable.step Reachable.init (Step.upload "a.pdf" pdfMagic "s" initState rfl))
      "s" _ rfl).1 rfl⟩

/-- Claim C6: in every reachable state, a stored session record has
`translated_path` set exactly when a translation attempt has succeeded for
that session (the history variable set only where routes.py line 198 stores
the path); a failed gateway result leaves both unchanged. -/
theorem translated_path_iff_translation_succeeded (st : AppState)
    (h : Reachable st) (session_id : String) (r : SessionRec)
    (hfind : storeFind st.store session_id = some r) :
    r.translated_path.isSome = r.translationSucceeded :=
  (reachable_storeInv h _ (storeFind_mem hfind)).2

/-- Witness for C6: instantiated at the reachable state after upload, update
and one successful translation, whose record has both the path and the
history flag set. -/
theorem translated_path_iff_translation_succeeded_witness :
    recAfterTranslate.translated_path.isSome = recAfterTranslate.translationSucceeded :=
  translated_path_iff_translation_succeeded stateAfterTranslate
    (Reachable.step
      (Reachable.step
        (Reachable.step Reachable.init (Step.upload "a.pdf" pdfMagic "s" initState rfl))
        (Step.update "s" pdfMagic stateAfterUpload))
      (Step.translate "s" gatewaySuccess pdfMagic stateAfterUpdate))
    "s" _ rfl

/-!
### Translation gateway (`pdf_processor_simple.py` lines 23-120)
-/

/-- The provider status object polled at pdf_processor_simple.py line 76:
`done` is the completion flag of line 80, `error_message` the attribute
tested at line 85 (always present on the library object, possibly `None`). -/
structure DocStatus where
  done : Bool
  error_message : Option String := none
deriving DecidableEq

/-- The external translation provider, as an oracle: the outcome of the
upload call (line 60), of the k-th status poll (line 76), and of the
download call (line 94). `Except.error` is a raised exception. -/
structure Provider where
  uploadResult : Except String Unit
  statusAt : Nat → Except String DocStatus
  downloadResult : Except String Unit

/-- Python truthiness of `status.error_message` (line 85): a non-`None`,
non-empty string. -/
def truthyMsg : Option String → Bool
  | none => false
  | some m => m != ""

/-- The polling loop of pdf_processor_simple.py lines 75-88, polling from
index `k` with `slept` time units of sleep accumulated so far, with `fuel`
polls still allowed. Returns `none` when the fuel runs out (the loop is
still running), else the loop outcome — completion index or raised
exception text — paired with the total sleep time. The order mirrors the
source: completion is checked first (line 80), the error message second
(line 85), and `time.sleep(2)` runs last (line 88). -/
def pollLoop (p : Provider) (k slept : Nat) : Nat → Option (Except String Nat × Nat)
  | 0 => none
  | fuel + 1 =>
    match p.statusAt k with
    | Except.error e => some (Except.error e, slept)
    | Except.ok status =>
      if status.done then some (Except.ok k, slept)
      else if truthyMsg status.error_message then
        some (Except.error ("Translation failed: " ++ status.error_message.getD ""), slept)
      else pollLoop p (k + 1) (slept + 2) fuel

/-- The k-th poll makes the loop stop: the status call raises, or reports
completion, or reports a truthy error message. -/
def pollResolves (p : Provider) (j : Nat) : Prop :=
  match p.statusAt j with
  | Except.error _ => True
  | Except.ok status => status.done = true ∨ truthyMsg status.error_message = true

/-- The failure dict of pdf_processor_simple.py lines 116-120. -/
def mkFailure (e : String) : TransResult :=
  { success := false, error := some e, message := "Translation failed: " ++ e }

/-- The success dict of pdf_processor_simple.py lines 102-106. -/
def deeplSuccessResult (output_pdf_path : String) : TransResult :=
  { success := true, output_path := some output_pdf_path,
    message := "Translation completed successfully using DeepL Document API" }

/-- Embedding of `PDFProcessor.translate_document_deepl`
(pdf_processor_simple.py lines 23-120): upload, poll until resolved,
download; the whole body sits in one `try`, so any raised exception at any
step becomes the failure dict. `none` means the polling loop is still
running after `fuel` polls (the source has no retry bound). -/
def translate_document_deepl (p : Provider) (output_pdf_path : String)
    (fuel : Nat) : Option TransResult :=
  match p.uploadResult with
  | Except.error e => some (mkFailure e)
  | Except.ok _ =>
    match pollLoop p 0 0 fuel with
    | none => none
    | some (Except.error e, _) => some (mkFailure e)
    | some (Except.ok _, _) =>
      match p.downloadResult with
      | Except.error e => some (mkFailure e)
      | Except.ok _ => some (deeplSuccessResult output_pdf_path)

/-- A successful loop exit happened at a poll that reported completion, and
the loop slept exactly 2 units per intermediate poll. -/
theorem pollLoop_ok_elim {p : Provider} {fuel k c n s : Nat}
    (h : pollLoop p k c fuel = some (Except.ok n, s)) :
    ∃ ds, p.statusAt n = Except.ok ds ∧ ds.done = true ∧ k ≤ n ∧ s = c + 2 * (n - k) := by
  induction fuel generalizing k c with
  | zero => simp [pollLoop] at h
  | succ fuel ih =>
    rw [pollLoop] at h
    cases hst : p.statusAt k with
    | error e => rw [hst] at h; simp at h
    | ok ds =>
      rw [hst] at h
      dsimp only at h
      by_cases hd : ds.done = true
      · rw [if_pos hd] at h
        simp only [Option.some.injEq, Prod.mk.injEq, Except.ok.injEq] at h
        obtain ⟨rfl, rfl⟩ := h
        exact ⟨ds, hst, hd, Nat.le_refl _, by omega⟩
      · rw [if_neg hd] at h
        by_cases ht : truthyMsg ds.error_message = true
        · rw [if_pos ht] at h; simp at h
        · rw [if_neg ht] at h
          obtain ⟨ds2, h1, h2, h3, h4⟩ := ih h
          exact ⟨ds2, h1, h2, by omega, by omega⟩

/-- If no poll ever resolves, the loop never returns, whatever the fuel: the
source has no retry bound, so it never gives up on its own. -/
theorem pollLoop_none_of_unresolved {p : Provider}
    (h : ∀ j, ¬ pollResolves p j) : ∀ fuel k c, pollLoop p k c fuel = none := by
  intro fuel
  induction fuel with
  | zero => intro k c; rfl
  | succ fuel ih =>
    intro k c
    have hk := h k
    rw [pollLoop]
    cases hst : p.statusAt k with
    | error e =>
      rw [pollResolves, hst] at hk
      exact absurd trivial hk
    | ok ds =>
      rw [pollResolves, hst, not_or] at hk
      dsimp only
      rw [if_neg hk.1, if_neg hk.2]
      exact ih (k + 1) (c + 2)

/-- Claim C7 as amended: the polling loop terminates successfully exactly at
a poll reporting completion (and then slept 2 units per earlier poll); it
terminates with failure immediately when a poll reports a truthy error
message without also reporting completion — completion is checked first; a
poll reporting neither just adds one 2-unit sleep before the next poll; and
if no poll ever resolves the loop runs forever. -/
theorem poll_loop_contract (p : Provider) :
    (∀ k c fuel ds, p.statusAt k = Except.ok ds → ds.done = true →
      pollLoop p k c (fuel + 1) = some (Except.ok k, c)) ∧
    (∀ k c fuel n s, pollLoop p k c fuel = some (Except.ok n, s) →
      ∃ ds, p.statusAt n = Except.ok ds ∧ ds.done = true ∧ k ≤ n ∧ s = c + 2 * (n - k)) ∧
    (∀ k c fuel ds m, p.statusAt k = Except.ok ds → ds.done = false →
      ds.error_message = some m → m ≠ "" →
      pollLoop p k c (fuel + 1) = some (Except.error ("Translation failed: " ++ m), c)) ∧
    (∀ k c fuel ds, p.statusAt k = Except.ok ds → ds.done = false →
      truthyMsg ds.error_message = false →
      pollLoop p k c (fuel + 1) = pollLoop p (k + 1) (c + 2) fuel) ∧
    ((∀ j, ¬ pollResolves p j) → ∀ fuel k c, pollLoop p k c fuel = none) := by
  refine ⟨?_, ?_, ?_, ?_, fun h fuel k c => pollLoop_none_of_unresolved h fuel k c⟩
  · intro k c fuel ds hst hd
    rw [pollLoop, hst]
    dsimp only
    rw [if_pos hd]
  · intro k c fuel n s h
    exact pollLoop_ok_elim h
  · intro k c fuel ds m hst hd hm hne
    rw [pollLoop, hst]
    dsimp only
    rw [if_neg (by simp [hd]), if_pos (by simp [truthyMsg, hm, hne]), hm]
    rfl
  · intro k c fuel ds hst hd ht
    rw [pollLoop, hst]
    dsimp only
    rw [if_neg (by simp [hd]), if_neg (by simp [ht])]

/-- A provider that reports pending twice, then completion. -/
def pendingThenDone : Provider :=
  { uploadResult := Except.ok (),
    statusAt := fun j =>
      if j < 2 then Except.ok { done := false } else Except.ok { done := true },
    downloadResult := Except.ok () }

/-- Witness for the amended C7: against `pendingThenDone`, a poll reporting
completion stops the loop at once with the accumulated sleep, and a poll
reporting neither completion nor an error costs exactly one more 2-unit
sleep. -/
theorem poll_loop_contract_witness :
    pollLoop pendingThenDone 2 4 1 = some (Except.ok 2, 4) ∧
    pollLoop pendingThenDone 0 0 3 = pollLoop pendingThenDone 1 2 2 :=
  ⟨(poll_loop_contract pendingThenDone).1 2 4 0 { done := true } rfl rfl,
    (poll_loop_contract pendingThenDone).2.2.2.1 0 0 2 { done := false } rfl rfl rfl⟩

/-- A provider whose very first status reports completion together with an
error message. -/
def doneWithErrorProvider : Provider :=
  { uploadResult := Except.ok (),
    statusAt := fun _ => Except.ok { done := true, error_message := some "boom" },
    downloadResult := Except.ok () }

/-- Claim C7, counterexample: the first poll reports the error message
`boom`, yet the loop terminates successfully (and the whole gateway reports
success): pdf_processor_simple.py line 80 checks `status.done` before line
85 checks `status.error_message`, so an error message does not imply
immediate failure as the claim states. -/
theorem poll_loop_error_message_without_failure :
    (doneWithErrorProvider.statusAt 0 =
        Except.ok { done := true, error_message := some "boom" }) ∧
    truthyMsg (some "boom") = true ∧
    pollLoop doneWithErrorProvider 0 0 1 = some (Except.ok 0, 0) ∧
    translate_document_deepl doneWithErrorProvider (tempJoin "out.pdf") 1 =
      some (deeplSuccessResult (tempJoin "out.pdf")) :=
  ⟨rfl, rfl, rfl, rfl⟩

/-- Claim C9: whenever the gateway returns, the result is either the success
dict or a failure dict built from an exception message — it never raises;
an exception at the upload, polling or download step yields exactly the
failure dict carrying that message; the failure dict has `success = false`
and the exception text in `error`, the success dict has `success = true`;
and it is the API layer that turns a failure result into the 500 response
(routes.py line 206) while leaving the state untouched. -/
theorem translate_document_deepl_never_raises (p : Provider)
    (output_pdf_path : String) (fuel : Nat) :
    (∀ r, translate_document_deepl p output_pdf_path fuel = some r →
      r = deeplSuccessResult output_pdf_path ∨ ∃ e, r = mkFailure e) ∧
    (∀ e, p.uploadResult = Except.error e →
      translate_document_deepl p output_pdf_path fuel = some (mkFailure e)) ∧
    (∀ u e s, p.uploadResult = Except.ok u →
      pollLoop p 0 0 fuel = some (Except.error e, s) →
      translate_document_deepl p output_pdf_path fuel = some (mkFailure e)) ∧
    (∀ u n s e, p.uploadResult = Except.ok u →
      pollLoop p 0 0 fuel = some (Except.ok n, s) →
      p.downloadResult = Except.error e →
      translate_document_deepl p output_pdf_path fuel = some (mkFailure e)) ∧
    (∀ e, (mkFailure e).success = false ∧ (mkFailure e).error = some e ∧
      (mkFailure e).message = "Translation failed: " ++ e) ∧
    (deeplSuccessResult output_pdf_path).success = true ∧
    (∀ (st : AppState) (sid : String) (gw : TransResult) (outBytes : Bytes)
        (r : SessionRec), storeFind st.store sid = some r → gw.success = false →
      translate_pdf sid gw outBytes st =
        (ApiResult.httpError 500 (gw.error.getD ""), st)) := by
  refine ⟨?_, ?_, ?_, ?_, fun e => ⟨rfl, rfl, rfl⟩, rfl, ?_⟩
  · intro r h
    unfold translate_document_deepl at h
    cases hu : p.uploadResult with
    | error e =>
      rw [hu] at h
      injection h with h
      exact Or.inr ⟨e, h.symm⟩
    | ok u =>
      rw [hu] at h
      dsimp only at h
      cases hl : pollLoop p 0 0 fuel with
      | none => rw [hl] at h; cases h
      | some pr =>
        rw [hl] at h
        obtain ⟨res, s⟩ := pr
        cases res with
        | error e =>
          dsimp only at h
          injection h with h
          exact Or.inr ⟨e, h.symm⟩
        | ok n =>
          dsimp only at h
          cases hd : p.downloadResult with
          | error e =>
            rw [hd] at h
            injection h with h
            exact Or.inr ⟨e, h.symm⟩
          | ok d =>
            rw [hd] at h
            injection h with h
            exact Or.inl h.symm
  · intro e hu
    unfold translate_document_deepl
    rw [hu]
  · intro u e s hu hl
    unfold translate_document_deepl
    rw [hu, hl]
  · intro u n s e hu hl hd
    unfold translate_document_deepl
    rw [hu, hl]
    dsimp only
    rw [hd]
  · intro st sid gw outBytes r hfind hgw
    unfold translate_pdf
    rw [hfind]
    dsimp only
    rw [if_neg (by simp [hgw])]

/-- A provider whose upload call raises. -/
def failingUploadProvider : Provider :=
  { uploadResult := Except.error "upload exploded",
    statusAt := fun _ => Except.ok { done := true },
    downloadResult := Except.ok () }

/-- Witness for C9: a raised upload exception becomes the failure dict with
that message, and the API layer maps a failure result to the 500 response on
the concrete uploaded session. -/
theorem translate_document_deepl_never_raises_witness :
    translate_document_deepl failingUploadProvider (tempJoin "out.pdf") 1 =
      some (mkFailure "upload exploded") ∧
    translate_pdf "s" (mkFailure "upload exploded") pdfMagic stateAfterUpload =
      (ApiResult.httpError 500 "upload exploded", stateAfterUpload) :=
  ⟨(translate_document_deepl_never_raises failingUploadProvider
      (tempJoin "out.pdf") 1).2.1 "upload exploded" rfl,
    (translate_document_deepl_never_raises failingUploadProvider
      (tempJoin "out.pdf") 1).2.2.2.2.2.2 stateAfterUpload "s"
      (mkFailure "upload exploded") pdfMagic recAfterUpload rfl rfl⟩
